import Mathlib

/-!
Verification of the leveled logging component of the webCrawler repository
(file logger/logger.go), via a shallow embedding of its logic in Lean.

Paths, messages and rendered lines are modelled as lists of characters,
matching the byte-level manipulations of the Go code (trailing-newline
trimming, root-path stripping); severity names and configuration values are
kept as Lean strings, matching the Go switch statements on strings.

Side effects are made explicit: the package-level state (configured minimum
level, selected output stream, and the sequence of lines written to the
sink) is a LoggerState threaded through the logging functions, and the
post-write control-flow action (normal return, os.Exit with status -1, or a
Go panic carrying a payload) is reified as a Termination value.  The
fmt.Sprintf formatting of the message in formatLogMessage is abstracted:
the logging functions take the already-formatted message, since filtering,
trimming, rendering and termination are independent of how it was produced.
The wall-clock timestamp and the runtime.Caller result are nondeterministic
inputs of logMessage and are passed as parameters (the caller information
is an Option, none modelling the !ok branch).
-/

namespace Logger

/-- The two output streams supported by setLoggerOutput. -/
inductive OutputStream where
  | stderr : OutputStream
  | stdout : OutputStream
  deriving DecidableEq

/-- What a logging call does to control flow after the write, reifying the
final switch of logMessage: return normally, call os.Exit with the given
status, or raise a Go panic carrying the trimmed message as payload. -/
inductive Termination where
  | normal : Termination
  | exit (code : Int) : Termination
  | panicked (payload : List Char) : Termination
  deriving DecidableEq

/-- The package-level mutable state of the logger package: the two
configuration globals and the contents written to the output sink so far
(each element one write of a rendered line). -/
structure LoggerState where
  loggerLevel : String
  output : OutputStream
  written : List (List Char)
  deriving DecidableEq

/-- Embedding of the trimming loop of logMessage, on the reversed
character list: drop leading newline characters. -/
def trimRevAux : List Char → List Char
  | [] => []
  | c :: t => if c = '\n' then trimRevAux t else c :: t

/-- Embedding of the loop `for len(msg) > 0 && msg[len(msg)-1] == '\n'`
in logMessage: remove all trailing newline characters. -/
def trimList (msg : List Char) : List Char :=
  (trimRevAux msg.reverse).reverse

/-- Boolean prefix test on character lists, the building block for the
embedding of strings.Index. -/
def isPrefixList : List Char → List Char → Bool
  | [], _ => true
  | _ :: _, [] => false
  | a :: as, b :: bs => a == b && isPrefixList as bs

/-- Embedding of strings.Index: the index of the first occurrence of
marker in the list, or none when there is no occurrence (Go returns -1). -/
def firstOccurrenceIdx (marker : List Char) : List Char → Option Nat
  | [] => if isPrefixList marker [] then some 0 else none
  | c :: t =>
    if isPrefixList marker (c :: t) then some 0
    else (firstOccurrenceIdx marker t).map (fun n => n + 1)

/-- The constant programRootPath of logger.go. -/
def programRootPath : List Char := "/webCrawler/".data

/-- The constant programRootPathLength of logger.go. -/
def programRootPathLength : Nat := programRootPath.length

/-- Embedding of the root stripping in logMessage: if the file path
contains programRootPath, keep only what follows its first occurrence. -/
def stripRoot (file : List Char) : List Char :=
  match firstOccurrenceIdx programRootPath file with
  | some n => file.drop (n + programRootPathLength)
  | none => file

/-- Embedding of `location := fmt.Sprintf("%s:%d", file, line)` applied to
the stripped file path. -/
def renderLocation (file : List Char) (line : Int) : List Char :=
  stripRoot file ++ ':' :: (toString line).data

/-- The file component of the runtime.Caller result: the placeholder `???`
when the caller is unavailable. -/
def callerFile (caller : Option (List Char × Int)) : List Char :=
  match caller with
  | some p => p.1
  | none => "???".data

/-- The line component of the runtime.Caller result: 0 when the caller is
unavailable. -/
def callerLine (caller : Option (List Char × Int)) : Int :=
  match caller with
  | some p => p.2
  | none => 0

/-- Embedding of `fmt.Sprintf("%s\t%s\t%s\t%s\n", timestamp, level,
location, msg)`: the four tab-separated fields and the final newline. -/
def renderLine (timestamp level location msg : List Char) : List Char :=
  timestamp ++ '\t' :: (level ++ '\t' :: (location ++ '\t' :: (msg ++ ['\n'])))

/-- Embedding of shouldSkipLog of logger.go: switch on the configured
loggerLevel, each case listing the call levels that are not skipped, with
a permissive default branch. -/
def shouldSkipLog (loggerLevel level : String) : Bool :=
  if loggerLevel = "WARN" then
    !(level == "WARN" || level == "ERROR" || level == "FATAL" || level == "PANIC")
  else if loggerLevel = "ERROR" then
    !(level == "ERROR" || level == "FATAL" || level == "PANIC")
  else if loggerLevel = "FATAL" then
    !(level == "FATAL" || level == "PANIC")
  else if loggerLevel = "PANIC" then
    level != "PANIC"
  else
    false

/-- Embedding of logMessage of logger.go: resolve the caller location,
strip the root path, trim trailing newlines, render the line, append it to
the sink, and determine the post-write termination action. -/
def logMessage (st : LoggerState) (level : String) (msg ts : List Char)
    (caller : Option (List Char × Int)) : LoggerState × Termination :=
  let location := renderLocation (callerFile caller) (callerLine caller)
  let m := trimList msg
  let logMsg := renderLine ts level.data location m
  ({ st with written := st.written ++ [logMsg] },
   if level = "PANIC" then Termination.panicked m
   else if level = "FATAL" then Termination.exit (-1)
   else Termination.normal)

/-- Embedding of logLevel of logger.go: return at once when the call is
filtered out, otherwise log the (already formatted) message. -/
def logLevel (st : LoggerState) (level : String) (msg ts : List Char)
    (caller : Option (List Char × Int)) : LoggerState × Termination :=
  if shouldSkipLog st.loggerLevel level then (st, Termination.normal)
  else logMessage st level msg ts caller

/-- Embedding of Infof (message already formatted). -/
def Infof (st : LoggerState) (msg ts : List Char)
    (caller : Option (List Char × Int)) : LoggerState × Termination :=
  logLevel st "INFO" msg ts caller

/-- Embedding of Warnf (message already formatted). -/
def Warnf (st : LoggerState) (msg ts : List Char)
    (caller : Option (List Char × Int)) : LoggerState × Termination :=
  logLevel st "WARN" msg ts caller

/-- Embedding of Errorf (message already formatted). -/
def Errorf (st : LoggerState) (msg ts : List Char)
    (caller : Option (List Char × Int)) : LoggerState × Termination :=
  logLevel st "ERROR" msg ts caller

/-- Embedding of Fatalf (message already formatted). -/
def Fatalf (st : LoggerState) (msg ts : List Char)
    (caller : Option (List Char × Int)) : LoggerState × Termination :=
  logLevel st "FATAL" msg ts caller

/-- Embedding of Panicf (message already formatted). -/
def Panicf (st : LoggerState) (msg ts : List Char)
    (caller : Option (List Char × Int)) : LoggerState × Termination :=
  logLevel st "PANIC" msg ts caller

/-- The panic message of validateLoggerLevel (Go %q renders the value in
double quotes). -/
def levelErrMsg (loggerLevel : String) : String :=
  "FATAL: unsupported `-loggerLevel` value: \"" ++ loggerLevel ++
    "\"; supported values are: INFO, WARN, ERROR, FATAL, PANIC"

/-- The panic message of setLoggerOutput. -/
def outputErrMsg (loggerOutput : String) : String :=
  "FATAL: unsupported `loggerOutput` value: \"" ++ loggerOutput ++
    "\"; supported values are: stderr, stdout"

/-- Embedding of validateLoggerLevel: a Go panic (which here aborts the
process, the logger being uninitialized) is an error result. -/
def validateLoggerLevel (loggerLevel : String) : Except String Unit :=
  if loggerLevel = "INFO" ∨ loggerLevel = "WARN" ∨ loggerLevel = "ERROR" ∨
      loggerLevel = "FATAL" ∨ loggerLevel = "PANIC" then
    Except.ok ()
  else
    Except.error (levelErrMsg loggerLevel)

/-- Embedding of setLoggerOutput: resolve the output selector to a stream,
a Go panic on an unsupported value being an error result. -/
def setLoggerOutput (loggerOutput : String) : Except String OutputStream :=
  if loggerOutput = "stderr" then Except.ok OutputStream.stderr
  else if loggerOutput = "stdout" then Except.ok OutputStream.stdout
  else Except.error (outputErrMsg loggerOutput)

/-- Embedding of Initialization: validate the level, then resolve the
output; the first failure aborts. -/
def Initialization (loggerLevel loggerOutput : String) :
    Except String OutputStream :=
  match validateLoggerLevel loggerLevel with
  | Except.error e => Except.error e
  | Except.ok _ => setLoggerOutput loggerOutput

/-- The five valid severity values, in increasing order of severity. -/
def validLevels : List String := ["INFO", "WARN", "ERROR", "FATAL", "PANIC"]

/-- Modelled from the spec: the rank of a severity in the documented order
INFO < WARN < ERROR < FATAL < PANIC, for comparison with shouldSkipLog. -/
def levelIdx (level : String) : Nat :=
  if level = "INFO" then 0
  else if level = "WARN" then 1
  else if level = "ERROR" then 2
  else if level = "FATAL" then 3
  else if level = "PANIC" then 4
  else 0

/-! ## Helper lemmas about trimming -/

theorem trimRevAux_head_not_newline (l : List Char) :
    trimRevAux l = [] ∨ ∃ c t, trimRevAux l = c :: t ∧ c ≠ '\n' := by
  induction l with
  | nil => left; rfl
  | cons c t ih =>
    by_cases h : c = '\n'
    · simpa [trimRevAux, h] using ih
    · right; exact ⟨c, t, by simp [trimRevAux, h], h⟩

theorem trimRevAux_idem (l : List Char) :
    trimRevAux (trimRevAux l) = trimRevAux l := by
  induction l with
  | nil => rfl
  | cons c t ih =>
    by_cases h : c = '\n'
    · simp [trimRevAux, h, ih]
    · simp [trimRevAux, h]

theorem trimRevAux_append_cons (x : List Char) (c : Char) (z : List Char)
    (hc : c ≠ '\n') :
    trimRevAux (trimRevAux x ++ c :: z) = trimRevAux x ++ c :: z := by
  rcases trimRevAux_head_not_newline x with h | ⟨d, t, h, hd⟩
  · simp [h, trimRevAux, hc]
  · simp [h, trimRevAux, hd]

theorem trimList_idem (l : List Char) : trimList (trimList l) = trimList l := by
  simp [trimList, List.reverse_reverse, trimRevAux_idem]

theorem trimList_append_newline (l : List Char) :
    trimList (l ++ ['\n']) = trimList l := by
  simp [trimList, trimRevAux]

theorem trimList_append_replicate (l : List Char) (k : Nat) :
    trimList (l ++ List.replicate k '\n') = trimList l := by
  induction k with
  | zero => simp
  | succ n ih =>
    rw [List.replicate_succ', ← List.append_assoc, trimList_append_newline, ih]

theorem trimList_append_singleton (l : List Char) (c : Char) (hc : c ≠ '\n') :
    trimList (l ++ [c]) = l ++ [c] := by
  simp [trimList, trimRevAux, hc]

theorem trimList_cons_trimmed (z x : List Char) :
    trimList (z ++ '\t' :: (trimList x ++ ['\n'])) =
      z ++ '\t' :: trimList x := by
  have h1 : (z ++ '\t' :: (trimList x ++ ['\n'])).reverse =
      '\n' :: (trimRevAux x.reverse ++ '\t' :: z.reverse) := by
    simp [trimList]
  have h2 : trimRevAux (trimRevAux x.reverse ++ '\t' :: z.reverse) =
      trimRevAux x.reverse ++ '\t' :: z.reverse :=
    trimRevAux_append_cons x.reverse '\t' z.reverse (by decide)
  rw [trimList, h1]
  rw [show trimRevAux ('\n' :: (trimRevAux x.reverse ++ '\t' :: z.reverse)) =
      trimRevAux (trimRevAux x.reverse ++ '\t' :: z.reverse) from by
    simp [trimRevAux]]
  rw [h2]
  simp [trimList]

/-! ## Helper lemmas about the severity filter -/

theorem mem_validLevels_iff (l : String) :
    l ∈ validLevels ↔
      l = "INFO" ∨ l = "WARN" ∨ l = "ERROR" ∨ l = "FATAL" ∨ l = "PANIC" := by
  simp [validLevels]

theorem shouldSkipLog_eq_decide :
    ∀ L ∈ validLevels, ∀ M ∈ validLevels,
      shouldSkipLog M L = decide (levelIdx L < levelIdx M) := by decide

theorem shouldSkipLog_panic_eq_false (M : String) :
    shouldSkipLog M "PANIC" = false := by
  by_cases h1 : M = "WARN"
  · subst h1; decide
  · by_cases h2 : M = "ERROR"
    · subst h2; decide
    · by_cases h3 : M = "FATAL"
      · subst h3; decide
      · by_cases h4 : M = "PANIC"
        · subst h4; decide
        · simp [shouldSkipLog, h1, h2, h3, h4]

theorem shouldSkipLog_fatal_eq_false (M : String) (h : M ≠ "PANIC") :
    shouldSkipLog M "FATAL" = false := by
  by_cases h1 : M = "WARN"
  · subst h1; decide
  · by_cases h2 : M = "ERROR"
    · subst h2; decide
    · by_cases h3 : M = "FATAL"
      · subst h3; decide
      · simp [shouldSkipLog, h1, h2, h3, h]

/-! ## Claim theorems -/

/-- C6: trailing-newline trimming is idempotent; messages differing only in
their number (including zero) of trailing newline characters render to the
same line; and every rendered line ends with exactly one trailing newline
(trimming all trailing newlines from the line and appending one newline
gives the line back). -/
theorem trim_idempotent_single_trailing_newline :
    (∀ msg : List Char, trimList (trimList msg) = trimList msg) ∧
    (∀ (ts lvl loc msg : List Char) (k : Nat),
      renderLine ts lvl loc (trimList (msg ++ List.replicate k '\n')) =
        renderLine ts lvl loc (trimList msg)) ∧
    (∀ ts lvl loc msg : List Char,
      trimList (renderLine ts lvl loc (trimList msg)) ++ ['\n'] =
        renderLine ts lvl loc (trimList msg)) := by
  refine ⟨trimList_idem, ?_, ?_⟩
  · intro ts lvl loc msg k
    rw [trimList_append_replicate]
  · intro ts lvl loc msg
    have h := trimList_cons_trimmed
      (ts ++ '\t' :: (lvl ++ '\t' :: loc)) msg
    have hline : renderLine ts lvl loc (trimList msg) =
        (ts ++ '\t' :: (lvl ++ '\t' :: loc)) ++ '\t' :: (trimList msg ++ ['\n']) := by
      simp [renderLine]
    rw [hline, h]
    simp

/-- C10: trimming removes only newline characters from the end of the
message: any message ending in a character other than a newline is left
unchanged, and in particular a message ending in a carriage return followed
by a newline keeps the carriage return. -/
theorem trim_removes_only_newline :
    (∀ (l : List Char) (c : Char), c ≠ '\n' → trimList (l ++ [c]) = l ++ [c]) ∧
    trimList "x\r\n".data = "x\r".data := by
  constructor
  · exact trimList_append_singleton
  · decide

/-- Witness for C10 at the concrete message `x` followed by a carriage
return. -/
theorem trim_removes_only_newline_witness :
    trimList ("x".data ++ ['\r']) = "x".data ++ ['\r'] :=
  trim_removes_only_newline.1 "x".data '\r' (by decide)

/-- C1: over the five valid severities, a call at severity L passes the
filter (shouldSkipLog returns false) exactly when L is at least the
configured minimum M in the order INFO < WARN < ERROR < FATAL < PANIC; for
any configured value outside the five valid severities, shouldSkipLog
returns false for every call level; and logLevel appends a line to the sink
exactly when the filter passes. -/
theorem severity_filtering :
    (∀ L ∈ validLevels, ∀ M ∈ validLevels,
      (shouldSkipLog M L = false ↔ levelIdx M ≤ levelIdx L)) ∧
    (∀ M : String, M ∉ validLevels → ∀ L : String, shouldSkipLog M L = false) ∧
    (∀ (st : LoggerState) (level : String) (msg ts : List Char)
      (caller : Option (List Char × Int)),
      (logLevel st level msg ts caller).1.written.length =
        st.written.length + if shouldSkipLog st.loggerLevel level then 0 else 1) := by
  refine ⟨by decide, ?_, ?_⟩
  · intro M hM L
    have hW : M ≠ "WARN" := by intro h; rw [h] at hM; exact hM (by decide)
    have hE : M ≠ "ERROR" := by intro h; rw [h] at hM; exact hM (by decide)
    have hF : M ≠ "FATAL" := by intro h; rw [h] at hM; exact hM (by decide)
    have hP : M ≠ "PANIC" := by intro h; rw [h] at hM; exact hM (by decide)
    simp [shouldSkipLog, hW, hE, hF, hP]
  · intro st level msg ts caller
    by_cases h : shouldSkipLog st.loggerLevel level
    · simp [logLevel, h]
    · simp [logLevel, logMessage, h]

/-- Witness for C1: a concrete pair of valid severities, and a concrete
invalid configured value. -/
theorem severity_filtering_witness :
    (shouldSkipLog "WARN" "ERROR" = false ↔ levelIdx "WARN" ≤ levelIdx "ERROR") ∧
    shouldSkipLog "DEBUG" "INFO" = false :=
  ⟨severity_filtering.1 "ERROR" (by decide) "WARN" (by decide),
   severity_filtering.2.1 "DEBUG" (by decide) "INFO"⟩

/-- C8: a call at a valid severity strictly below a valid configured
minimum severity returns at once: the state (configuration, output stream,
sink contents) is unchanged and the termination action is a normal
return. -/
theorem below_minimum_frame :
    ∀ (st : LoggerState) (level : String) (msg ts : List Char)
      (caller : Option (List Char × Int)),
      st.loggerLevel ∈ validLevels → level ∈ validLevels →
      levelIdx level < levelIdx st.loggerLevel →
      logLevel st level msg ts caller = (st, Termination.normal) := by
  intro st level msg ts caller hM hL hlt
  have h := shouldSkipLog_eq_decide level hL st.loggerLevel hM
  simp [logLevel, h, hlt]

/-- Witness for C8: an INFO call under a configured minimum of ERROR. -/
theorem below_minimum_frame_witness :
    logLevel { loggerLevel := "ERROR", output := OutputStream.stderr, written := [] }
      "INFO" "hello".data "TS".data (some ("main.go".data, 5)) =
      ({ loggerLevel := "ERROR", output := OutputStream.stderr, written := [] },
        Termination.normal) :=
  below_minimum_frame _ _ _ _ _ (by decide) (by decide) (by decide)

/-- C2 counterexample: with the configured minimum level PANIC, a Fatalf
call is filtered out by shouldSkipLog, so it writes nothing, does not call
os.Exit, and control returns to the caller normally — contradicting the
claim that a FATAL call terminates the process for every configured
minimum severity. -/
theorem fatalf_filtered_at_panic_level_cex :
    Fatalf { loggerLevel := "PANIC", output := OutputStream.stderr, written := [] }
      "disk full".data "2024-01-02T15:04:05.123Z".data
      (some ("main.go".data, 10)) =
    ({ loggerLevel := "PANIC", output := OutputStream.stderr, written := [] },
      Termination.normal) := by
  decide

/-- C2 (amended): for every configured minimum severity other than PANIC,
a Fatalf call appends exactly its rendered line to the sink and then
terminates the process via os.Exit with status -1, which is non-zero;
control never returns to the caller. -/
theorem fatalf_exits_unless_min_panic :
    ∀ (st : LoggerState) (msg ts : List Char) (caller : Option (List Char × Int)),
      st.loggerLevel ≠ "PANIC" →
      (Fatalf st msg ts caller).1.written =
        st.written ++ [renderLine ts "FATAL".data
          (renderLocation (callerFile caller) (callerLine caller)) (trimList msg)] ∧
      (Fatalf st msg ts caller).2 = Termination.exit (-1) ∧ (-1 : Int) ≠ 0 := by
  intro st msg ts caller h
  have hs := shouldSkipLog_fatal_eq_false st.loggerLevel h
  refine ⟨?_, ?_, by decide⟩ <;> simp [Fatalf, logLevel, hs, logMessage]

/-- Witness for the amended C2 at the configured minimum INFO. -/
theorem fatalf_exits_unless_min_panic_witness :
    (Fatalf { loggerLevel := "INFO", output := OutputStream.stderr, written := [] }
        "disk full".data "TS".data (some ("main.go".data, 10))).1.written =
      ([] : List (List Char)) ++ [renderLine "TS".data "FATAL".data
        (renderLocation (callerFile (some ("main.go".data, 10)))
          (callerLine (some ("main.go".data, 10)))) (trimList "disk full".data)] ∧
    (Fatalf { loggerLevel := "INFO", output := OutputStream.stderr, written := [] }
        "disk full".data "TS".data (some ("main.go".data, 10))).2 =
      Termination.exit (-1) ∧ (-1 : Int) ≠ 0 :=
  fatalf_exits_unless_min_panic
    { loggerLevel := "INFO", output := OutputStream.stderr, written := [] }
    "disk full".data "TS".data (some ("main.go".data, 10)) (by decide)

/-- C3: for every configured minimum severity (valid or not), a Panicf
call appends its rendered line to the sink and then panics with the
trimmed message as payload. -/
theorem panicf_writes_then_panics :
    ∀ (st : LoggerState) (msg ts : List Char) (caller : Option (List Char × Int)),
      Panicf st msg ts caller =
        ({ st with written := st.written ++ [renderLine ts "PANIC".data
            (renderLocation (callerFile caller) (callerLine caller)) (trimList msg)] },
          Termination.panicked (trimList msg)) := by
  intro st msg ts caller
  simp [Panicf, logLevel, shouldSkipLog_panic_eq_false, logMessage]

/-- C7: every line a logging call appends to the sink consists of exactly
four fields — timestamp, level name, location, trimmed message — joined by
single tab characters and followed by a single newline, in that order
(either the call is filtered and the sink is unchanged, or exactly that
line is appended). -/
theorem emitted_line_four_fields :
    ∀ (st : LoggerState) (level : String) (msg ts : List Char)
      (caller : Option (List Char × Int)),
      (logLevel st level msg ts caller).1.written = st.written ∨
      (logLevel st level msg ts caller).1.written =
        st.written ++
          [ts ++ '\t' :: (level.data ++ '\t' ::
            (renderLocation (callerFile caller) (callerLine caller) ++ '\t' ::
              (trimList msg ++ ['\n'])))] := by
  intro st level msg ts caller
  by_cases h : shouldSkipLog st.loggerLevel level
  · left; simp [logLevel, h]
  · right; simp [logLevel, h, logMessage, renderLine]

/-- C4: Initialization aborts with the level error when the configured
minimum level is invalid, whatever the output selector is (the level is
validated first); with a valid level it aborts with the output error when
the selector is neither stderr nor stdout; and with valid inputs it
returns normally with the selected stream. -/
theorem initialization_validation :
    (∀ loggerLevel loggerOutput : String, loggerLevel ∉ validLevels →
      Initialization loggerLevel loggerOutput =
        Except.error (levelErrMsg loggerLevel)) ∧
    (∀ loggerLevel loggerOutput : String, loggerLevel ∈ validLevels →
      loggerOutput ≠ "stderr" → loggerOutput ≠ "stdout" →
      Initialization loggerLevel loggerOutput =
        Except.error (outputErrMsg loggerOutput)) ∧
    (∀ loggerLevel : String, loggerLevel ∈ validLevels →
      Initialization loggerLevel "stderr" = Except.ok OutputStream.stderr ∧
      Initialization loggerLevel "stdout" = Except.ok OutputStream.stdout) := by
  refine ⟨?_, ?_, ?_⟩
  · intro l o h
    rw [mem_validLevels_iff] at h
    simp [Initialization, validateLoggerLevel, h]
  · intro l o h h1 h2
    rw [mem_validLevels_iff] at h
    simp [Initialization, validateLoggerLevel, setLoggerOutput, h, h1, h2]
  · intro l h
    rw [mem_validLevels_iff] at h
    constructor <;> simp [Initialization, validateLoggerLevel, setLoggerOutput, h]

/-- Witness for C4: an invalid level, a valid level with an invalid output
selector, and valid configurations for both streams. -/
theorem initialization_validation_witness :
    Initialization "DEBUG" "stdout" = Except.error (levelErrMsg "DEBUG") ∧
    Initialization "WARN" "pipe" = Except.error (outputErrMsg "pipe") ∧
    (Initialization "WARN" "stderr" = Except.ok OutputStream.stderr ∧
      Initialization "WARN" "stdout" = Except.ok OutputStream.stdout) :=
  ⟨initialization_validation.1 "DEBUG" "stdout" (by decide),
   initialization_validation.2.1 "WARN" "pipe" (by decide) (by decide) (by decide),
   initialization_validation.2.2 "WARN" (by decide)⟩

/-! ## Helper lemmas about the first-occurrence index -/

theorem isPrefixList_eq_false_of_short (as bs : List Char)
    (h : bs.length < as.length) : isPrefixList as bs = false := by
  induction as generalizing bs with
  | nil => simp at h
  | cons a as ih =>
    cases bs with
    | nil => rfl
    | cons b bs =>
      rw [isPrefixList, ih bs (by simpa using h), Bool.and_false]

theorem firstOccurrenceIdx_eq_some (marker file : List Char) (n : Nat)
    (hn : isPrefixList marker (file.drop n) = true)
    (hmin : ∀ m, m < n → isPrefixList marker (file.drop m) = false) :
    firstOccurrenceIdx marker file = some n := by
  induction file generalizing n with
  | nil =>
    have hnil : isPrefixList marker [] = true := by simpa using hn
    have h0 : n = 0 := by
      by_contra hne
      have h1 := hmin 0 (Nat.pos_of_ne_zero hne)
      simp [hnil] at h1
    subst h0
    simp [firstOccurrenceIdx, hnil]
  | cons c t ih =>
    cases n with
    | zero =>
      have h0 : isPrefixList marker (c :: t) = true := by simpa using hn
      simp [firstOccurrenceIdx, h0]
    | succ k =>
      have h0 : isPrefixList marker (c :: t) = false := by
        simpa using hmin 0 (Nat.succ_pos k)
      have ht : firstOccurrenceIdx marker t = some k := by
        apply ih
        · simpa using hn
        · intro m hm
          simpa using hmin (m + 1) (Nat.succ_lt_succ hm)
      simp [firstOccurrenceIdx, h0, ht]

theorem firstOccurrenceIdx_eq_none (marker file : List Char)
    (h : ∀ m, isPrefixList marker (file.drop m) = false) :
    firstOccurrenceIdx marker file = none := by
  induction file with
  | nil =>
    have h0 : isPrefixList marker [] = false := by simpa using h 0
    simp [firstOccurrenceIdx, h0]
  | cons c t ih =>
    have h0 : isPrefixList marker (c :: t) = false := by simpa using h 0
    have ht : firstOccurrenceIdx marker t = none := by
      apply ih
      intro m
      simpa using h (m + 1)
    simp [firstOccurrenceIdx, h0, ht]

/-- C5: when the root marker /webCrawler/ first occurs at position n of
the resolved file path, the rendered location is the portion of the path
after that occurrence followed by a colon and the line number; when the
marker occurs nowhere in the path, the full path is rendered unchanged. -/
theorem root_path_stripping :
    (∀ (file : List Char) (n : Nat) (line : Int),
      isPrefixList programRootPath (file.drop n) = true →
      (∀ m, m < n → isPrefixList programRootPath (file.drop m) = false) →
      renderLocation file line =
        file.drop (n + programRootPathLength) ++ ':' :: (toString line).data) ∧
    (∀ (file : List Char) (line : Int),
      (∀ m, isPrefixList programRootPath (file.drop m) = false) →
      renderLocation file line = file ++ ':' :: (toString line).data) := by
  constructor
  · intro file n line hn hmin
    simp [renderLocation, stripRoot,
      firstOccurrenceIdx_eq_some programRootPath file n hn hmin]
  · intro file line h
    simp [renderLocation, stripRoot, firstOccurrenceIdx_eq_none programRootPath file h]

/-- Witness for C5: a path containing the marker at index 4, and a short
path not containing it. -/
theorem root_path_stripping_witness :
    renderLocation "/x/y/webCrawler/pkg/file.go".data 7 =
      "/x/y/webCrawler/pkg/file.go".data.drop (4 + programRootPathLength) ++
        ':' :: (toString (7 : Int)).data ∧
    renderLocation "/a/b.go".data 3 =
      "/a/b.go".data ++ ':' :: (toString (3 : Int)).data := by
  constructor
  · exact root_path_stripping.1 "/x/y/webCrawler/pkg/file.go".data 4 7
      (by decide) (by decide)
  · refine root_path_stripping.2 "/a/b.go".data 3 ?_
    intro m
    apply isPrefixList_eq_false_of_short
    have h1 : ("/a/b.go".data.drop m).length ≤ "/a/b.go".data.length := by
      rw [List.length_drop]
      exact Nat.sub_le _ _
    have h2 : "/a/b.go".data.length = 7 := by decide
    have h3 : programRootPath.length = 12 := by decide
    omega

end Logger
